import Mathlib

/-
Verification of the Human Design bodygraph derivation engine
(calculations.py / constants.py): static tables, the angle-to-coordinate
mapper, the channel/center builder, and the feature-derivation functions
(energy type, authority, split, connectivity heuristic).
-/

namespace HumanDesign

/-- GATES_CHAKRA_DICT from constants.py: gate pair to center pair,
in source insertion order. -/
def GATES_CHAKRA_DICT : List ((Nat × Nat) × (String × String)) := [
  ((64, 47), ("HD", "AA")),
  ((61, 24), ("HD", "AA")),
  ((63, 4), ("HD", "AA")),
  ((17, 62), ("AA", "TT")),
  ((43, 23), ("AA", "TT")),
  ((11, 56), ("AA", "TT")),
  ((16, 48), ("TT", "SN")),
  ((20, 57), ("TT", "SN")),
  ((20, 34), ("TT", "SL")),
  ((20, 10), ("TT", "GC")),
  ((31, 7), ("TT", "GC")),
  ((8, 1), ("TT", "GC")),
  ((33, 13), ("TT", "GC")),
  ((45, 21), ("TT", "HT")),
  ((35, 36), ("TT", "SP")),
  ((12, 22), ("TT", "SP")),
  ((32, 54), ("SN", "RT")),
  ((28, 38), ("SN", "RT")),
  ((57, 34), ("SN", "SL")),
  ((50, 27), ("SN", "SL")),
  ((18, 58), ("SN", "RT")),
  ((10, 34), ("GC", "SL")),
  ((15, 5), ("GC", "SL")),
  ((2, 14), ("GC", "SL")),
  ((46, 29), ("GC", "SL")),
  ((10, 57), ("GC", "SN")),
  ((25, 51), ("GC", "HT")),
  ((59, 6), ("SL", "SP")),
  ((42, 53), ("SL", "RT")),
  ((3, 60), ("SL", "RT")),
  ((9, 52), ("SL", "RT")),
  ((26, 44), ("HT", "SN")),
  ((40, 37), ("HT", "SP")),
  ((49, 19), ("SP", "RT")),
  ((55, 39), ("SP", "RT")),
  ((30, 41), ("SP", "RT"))]

/-- ICHING_CIRCLE_LIST from constants.py: the 64 gates in bodygraph order. -/
def ICHING_CIRCLE_LIST : List Nat := [
  41, 19, 13, 49, 30, 55, 37, 63, 22, 36, 25, 17, 21, 51, 42, 3,
  27, 24, 2, 23, 8, 20, 16, 35, 45, 12, 15, 52, 39, 53, 62, 56,
  31, 33, 7, 4, 29, 59, 40, 64, 47, 6, 46, 18, 48, 57, 32, 50,
  28, 44, 1, 43, 14, 34, 9, 5, 26, 11, 10, 58, 38, 54, 61, 60]

/-- CHAKRA_LIST from constants.py. -/
def CHAKRA_LIST : List String := ["HD", "AA", "TT", "GC", "HT", "SP", "SN", "SL", "RT"]

/-- full_ch_list of _calc_full_gates_chakra_dict: channel gate pairs in
normal order followed by reversed order. -/
def full_ch_list : List (Nat × Nat) :=
  GATES_CHAKRA_DICT.map (fun e => e.1) ++
    GATES_CHAKRA_DICT.map (fun e => (e.1.2, e.1.1))

/-- full_ch_chakra_list: center pairs in normal order followed by reversed order. -/
def full_ch_chakra_list : List (String × String) :=
  GATES_CHAKRA_DICT.map (fun e => e.2) ++
    GATES_CHAKRA_DICT.map (fun e => (e.2.2, e.2.1))

/-- full_gate_1_list: first gate of each (doubly oriented) channel. -/
def full_gate_1_list : List Nat := full_ch_list.map (fun p => p.1)

/-- full_gate_2_list: second gate of each (doubly oriented) channel. -/
def full_gate_2_list : List Nat := full_ch_list.map (fun p => p.2)

/-- full_chakra_1_list: first center of each (doubly oriented) channel. -/
def full_chakra_1_list : List String := full_ch_chakra_list.map (fun p => p.1)

/-- full_chakra_2_list: second center of each (doubly oriented) channel. -/
def full_chakra_2_list : List String := full_ch_chakra_list.map (fun p => p.2)

/-- full_gate_chakra_dict: dict(zip(full_gate_1_list, full_chakra_1_list)).
Python dict comprehension keeps the LAST binding of a duplicated key, hence
the reverse before the first-match lookup. -/
def full_gate_chakra_dict (g : Nat) : String :=
  match ((full_gate_1_list.zip full_chakra_1_list).reverse.find?
      (fun p => p.1 == g)) with
  | some p => p.2
  | none => ""

/-- full_chakra_1_list[full_gate_1_list.index(gate)] in
get_channels_and_centers: the center stored with the FIRST occurrence of
the gate on the first-gate column. -/
def chakra_1_of (g : Nat) : String :=
  match ((full_gate_1_list.zip full_chakra_1_list).find? (fun p => p.1 == g)) with
  | some p => p.2
  | none => ""

/-- full_chakra_2_list[full_gate_2_list.index(gate)] in
get_channels_and_centers: the center stored with the FIRST occurrence of
the gate on the second-gate column. -/
def chakra_2_of (g : Nat) : String :=
  match ((full_gate_2_list.zip full_chakra_2_list).find? (fun p => p.1 == g)) with
  | some p => p.2
  | none => ""

/-- The inner loop of get_channels_and_centers for one activation gate:
scan the (doubly oriented) channel table in order and return the first
entry whose first gate is the activation gate and whose second gate also
occurs among the activations. -/
def firstPartner (gates : List Nat) (g : Nat) : Option (Nat × Nat) :=
  full_ch_list.find? (fun pr => decide (pr.1 = g ∧ pr.2 ∈ gates))

/-- ch_gate value left in the row for one activation: the partner gate
found by the scan, or the initial 0 when no channel is completed. -/
def ch_gate_of (gates : List Nat) (g : Nat) : Nat :=
  match firstPartner gates g with
  | some pr => pr.2
  | none => 0

/-- The per-activation rows (gate, ch_gate) of get_channels_and_centers
after the channel-completion loop. -/
def builderRows (gates : List Nat) : List (Nat × Nat) :=
  gates.map (fun g => (g, ch_gate_of gates g))

/-- The raw active_centers list built by the loop: for every activation
whose scan succeeds, the two centers looked up at the first occurrence of
the activation gate in the two gate columns. -/
def active_centers_list (gates : List Nat) : List String :=
  (gates.map (fun g =>
    if (firstPartner gates g).isSome then [chakra_1_of g, chakra_2_of g]
    else [])).flatten

/-- set(active_centers): the defined-center set returned by
get_channels_and_centers. -/
def active_centers (gates : List Nat) : Finset String :=
  (active_centers_list gates).toFinset

/-- sorted((a, b)) on a gate pair (Python sorted is ascending and stable). -/
def sortedPairN (p : Nat × Nat) : Nat × Nat :=
  if p.2 < p.1 then (p.2, p.1) else p

/-- Python string comparison: lexicographic on code points. -/
def charListLt : List Char → List Char → Bool
  | [], [] => false
  | [], _ :: _ => true
  | _ :: _, [] => false
  | a :: as, b :: bs =>
    if a.toNat < b.toNat then true
    else if b.toNat < a.toNat then false
    else charListLt as bs

/-- Python string comparison lifted to String. -/
def strLt (s t : String) : Bool := charListLt s.data t.data

/-- sorted((a, b)) on a center pair (lexicographic string order). -/
def sortedPairS (p : String × String) : String × String :=
  if strLt p.2 p.1 then (p.2, p.1) else p

/-- np.unique(..., return_index=True) first-occurrence deduplication:
keep an element when its key has not been seen at a smaller index. -/
def dedupByKey {α κ : Type} [DecidableEq κ] (key : α → κ) :
    List α → List κ → List α
  | [], _ => []
  | a :: as, seen =>
    if key a ∈ seen then dedupByKey key as seen
    else a :: dedupByKey key as (key a :: seen)

/-- The active-channel rows of get_channels_and_centers: the dupl_mask
(first occurrence of the sorted gate pair) and the mask (ch_gate not 0)
applied to the rows. -/
def active_channels (gates : List Nat) : List (Nat × Nat) :=
  (dedupByKey sortedPairN (builderRows gates) []).filter (fun p => p.2 ≠ 0)

/-- The (gate_chakra, ch_gate_chakra) columns of the active-channel dict. -/
def gate_chakra_rows (gates : List Nat) : List (String × String) :=
  (active_channels gates).map
    (fun p => (full_gate_chakra_dict p.1, full_gate_chakra_dict p.2))

/-- is_connected from calculations.py: False on an empty channel list,
otherwise compare the number of channel rows with both center columns
among the arguments against (number of arguments - 1). -/
def is_connected (ch : List (String × String)) (args : List String) : Bool :=
  if ch.length = 0 then false
  else decide (args.length - 1 ≤
    (ch.filter (fun c => decide (c.1 ∈ args ∧ c.2 ∈ args))).length)

/-- get_energy_type from calculations.py, on the active-channel center
columns and the defined-center set. -/
def get_energy_type (ch : List (String × String)) (centers : Finset String) :
    String :=
  if centers.card = 0 then "REFLECTOR"
  else if "SL" ∉ centers then
    if "TT" ∉ centers then "PROJECTOR"
    else if "HT" ∈ centers ∧ is_connected ch ["HT", "TT"] = true then "MANIFESTOR"
    else if "SP" ∈ centers ∧ is_connected ch ["SP", "TT"] = true then "MANIFESTOR"
    else if "RT" ∈ centers ∧ is_connected ch ["RT", "TT"] = true then "MANIFESTOR"
    else "PROJECTOR"
  else if "TT" ∉ centers then "GENERATOR"
  else if "HT" ∈ centers ∧ is_connected ch ["HT", "TT"] = true then
    "MANIFESTING GENERATOR"
  else if "SP" ∈ centers ∧ is_connected ch ["SP", "TT"] = true then
    "MANIFESTING GENERATOR"
  else if "RT" ∈ centers ∧ is_connected ch ["RT", "TT"] = true then
    "MANIFESTING GENERATOR"
  else if is_connected ch ["SL", "TT"] = true then "MANIFESTING GENERATOR"
  else "GENERATOR"

/-- get_authority from calculations.py (outer_auth_conditions inlined at
its use site, unchanged). -/
def get_authority (centers : Finset String) (ch : List (String × String)) :
    String :=
  if "SP" ∈ centers then "SP"
  else if "SL" ∈ centers then "SL"
  else if "SN" ∈ centers then "SN"
  else if is_connected ch ["HT", "TT"] = true then "HT"
  else if is_connected ch ["GC", "TT"] = true then "GC"
  else if "GC" ∈ centers ∧ "HT" ∈ centers then "HT_GC"
  else if centers.card = 0 then "lunar"
  else if "HD" ∈ centers ∨ "AA" ∈ centers ∨ "TT" ∈ centers ∨ centers.card = 0
    then "outher_auth"
  else "unknown"

/-- get_split from calculations.py: defined-center count minus the number
of first-occurrence-unique sorted center pairs of the active channels. -/
def get_split (ch : List (String × String)) (centers : Finset String) : Int :=
  (centers.card : Int) - ((dedupByKey sortedPairS ch []).length : Int)

/-- Python modulus on rationals for a positive modulus:
x % m = x - m * floor(x / m). -/
def pymod (x m : ℚ) : ℚ := x - m * ⌊x / m⌋

/-- angle = (long + offset) % 360 from date_to_gate (ICHING_OFFSET = 58). -/
def hd_angle (long : ℚ) : ℚ := pymod (long + 58) 360

/-- angle_percentage = angle / 360 from date_to_gate. -/
def hd_frac (long : ℚ) : ℚ := hd_angle long / 360

/-- gate = ICHING_CIRCLE_LIST[int(angle_percentage * 64)] from date_to_gate.
The Python int() truncation equals the floor because its argument is
nonnegative here. -/
def hd_gate (long : ℚ) : Nat := ICHING_CIRCLE_LIST.getD (⌊hd_frac long * 64⌋).toNat 0

/-- line = int((angle_percentage * 64 * 6) % 6 + 1) from date_to_gate. -/
def hd_line (long : ℚ) : Int := ⌊pymod (hd_frac long * 64 * 6) 6 + 1⌋

/-- color = int((angle_percentage * 64 * 6 * 6) % 6 + 1) from date_to_gate. -/
def hd_color (long : ℚ) : Int := ⌊pymod (hd_frac long * 64 * 6 * 6) 6 + 1⌋

/-- tone = int((angle_percentage * 64 * 6 * 6 * 6) % 6 + 1) from date_to_gate. -/
def hd_tone (long : ℚ) : Int := ⌊pymod (hd_frac long * 64 * 6 * 6 * 6) 6 + 1⌋

/-- base = int((angle_percentage * 64 * 6 * 6 * 6 * 5) % 5 + 1) from date_to_gate. -/
def hd_base (long : ℚ) : Int := ⌊pymod (hd_frac long * 64 * 6 * 6 * 6 * 5) 5 + 1⌋

/-- The energy-type decision procedure exactly as the specification words
it: same first-match order as the source but without the defined-center
guards in front of the connectivity checks. -/
def energyTypeSpec (ch : List (String × String)) (centers : Finset String) :
    String :=
  if centers = ∅ then "REFLECTOR"
  else if "SL" ∉ centers then
    if "TT" ∉ centers then "PROJECTOR"
    else if is_connected ch ["HT", "TT"] = true ∨ is_connected ch ["SP", "TT"] = true ∨
        is_connected ch ["RT", "TT"] = true then "MANIFESTOR"
    else "PROJECTOR"
  else if "TT" ∉ centers then "GENERATOR"
  else if is_connected ch ["HT", "TT"] = true ∨ is_connected ch ["SP", "TT"] = true ∨
      is_connected ch ["RT", "TT"] = true ∨ is_connected ch ["SL", "TT"] = true then
    "MANIFESTING GENERATOR"
  else "GENERATOR"

/-- The authority decision procedure exactly as the specification words
it: the same first-match chain, with the No-Inner-Authority test being
only Head or Ajna or Throat defined. -/
def authoritySpec (centers : Finset String) (ch : List (String × String)) :
    String :=
  if "SP" ∈ centers then "SP"
  else if "SL" ∈ centers then "SL"
  else if "SN" ∈ centers then "SN"
  else if is_connected ch ["HT", "TT"] = true then "HT"
  else if is_connected ch ["GC", "TT"] = true then "GC"
  else if "GC" ∈ centers ∧ "HT" ∈ centers then "HT_GC"
  else if centers = ∅ then "lunar"
  else if "HD" ∈ centers ∨ "AA" ∈ centers ∨ "TT" ∈ centers then "outher_auth"
  else "unknown"

/-- The channel rows whose two center columns both lie among the requested
centers (the rows the mask of is_connected selects). -/
def c7_matched (ch : List (String × String)) (args : List String) :
    List (String × String) :=
  ch.filter (fun c => decide (c.1 ∈ args ∧ c.2 ∈ args))

/-- The connectivity check as claim C7 words it: false without active
channels; for two requested centers, some channel with one endpoint in
each; for more than two, at least (count - 1) of the REQUESTED CENTERS
occur as endpoints of matched channels. Spec-side definition, to be
compared with is_connected. -/
def is_connected_claimC7 (ch : List (String × String)) (args : List String) :
    Bool :=
  if ch.length = 0 then false
  else if args.length = 2 then
    ch.any (fun c => decide ((c.1 = args.getD 0 "" ∧ c.2 = args.getD 1 "") ∨
      (c.1 = args.getD 1 "" ∧ c.2 = args.getD 0 "")))
  else decide (args.length - 1 ≤
    (args.filter (fun a =>
      (c7_matched ch args).any (fun c => c.1 == a || c.2 == a))).length)

/-- A 26-activation gate list containing the four mutually adjacent gates
20, 57, 34, 10 (six table pairs, but each activation contributes only its
first activated partner). -/
def fixtureA : List Nat := [20, 57, 34, 10] ++ List.replicate 22 20

/-- A 26-activation gate list activating the two distinct channels (31,7)
and (8,1), which share the same center pair Throat-G. -/
def fixtureB : List Nat := [31, 7, 8, 1] ++ List.replicate 22 31

/-- A 26-activation gate list whose five active channels span five
distinct center pairs over only four defined centers. -/
def fixtureC : List Nat := [16, 48, 31, 7, 15, 5, 50, 27, 20, 34] ++
  List.replicate 16 16

/-- A 26-activation gate list in which no adjacency pair is completed
(gate 64 has no partner among the activations). -/
def fixtureD : List Nat := List.replicate 26 64

theorem mem_of_mem_dedupByKey {α κ : Type} [DecidableEq κ] (key : α → κ) :
    ∀ (rs : List α) (seen : List κ) {a : α}, a ∈ dedupByKey key rs seen → a ∈ rs := by
  intro rs
  induction rs with
  | nil => intro seen a h; simp [dedupByKey] at h
  | cons b bs ih =>
    intro seen a h
    unfold dedupByKey at h
    by_cases hk : key b ∈ seen
    · rw [if_pos hk] at h; exact List.mem_cons_of_mem b (ih seen h)
    · rw [if_neg hk] at h
      rcases List.mem_cons.mp h with h2 | h2
      · rw [h2]; exact List.mem_cons_self _ _
      · exact List.mem_cons_of_mem b (ih _ h2)

theorem dedupByKey_sublist {α κ : Type} [DecidableEq κ] (key : α → κ) :
    ∀ (rs : List α) (seen : List κ), List.Sublist (dedupByKey key rs seen) rs := by
  intro rs
  induction rs with
  | nil => intro seen; simp [dedupByKey]
  | cons b bs ih =>
    intro seen
    unfold dedupByKey
    by_cases hk : key b ∈ seen
    · rw [if_pos hk]; exact (ih seen).cons b
    · rw [if_neg hk]; exact (ih _).cons₂ b

theorem dedupByKey_map_nodup {α κ : Type} [DecidableEq κ] (key : α → κ) :
    ∀ (rs : List α) (seen : List κ),
      ((dedupByKey key rs seen).map key).Nodup ∧
        ∀ k ∈ (dedupByKey key rs seen).map key, k ∉ seen := by
  intro rs
  induction rs with
  | nil => intro seen; simp [dedupByKey]
  | cons b bs ih =>
    intro seen
    unfold dedupByKey
    by_cases hk : key b ∈ seen
    · rw [if_pos hk]; exact ih seen
    · rw [if_neg hk]
      obtain ⟨h1, h2⟩ := ih (key b :: seen)
      simp only [List.map_cons]
      refine ⟨List.nodup_cons.mpr ⟨fun hmem => ?_, h1⟩, ?_⟩
      · exact (h2 _ hmem) (List.mem_cons_self _ _)
      · intro k hk2
        rcases List.mem_cons.mp hk2 with rfl | h3
        · exact hk
        · exact fun hs => (h2 k h3) (List.mem_cons_of_mem _ hs)

theorem dedupByKey_length {α κ : Type} [DecidableEq κ] (key : α → κ) :
    ∀ (rs : List α) (seen : List κ),
      (dedupByKey key rs seen).length =
        ((rs.map key).toFinset \ seen.toFinset).card := by
  intro rs
  induction rs with
  | nil => intro seen; simp [dedupByKey]
  | cons b bs ih =>
    intro seen
    unfold dedupByKey
    by_cases hk : key b ∈ seen
    · rw [if_pos hk, ih seen, List.map_cons, List.toFinset_cons,
        Finset.insert_sdiff_of_mem _ (List.mem_toFinset.mpr hk)]
    · rw [if_neg hk, List.length_cons, ih (key b :: seen), List.map_cons,
        List.toFinset_cons, List.toFinset_cons, Finset.sdiff_insert,
        Finset.insert_sdiff_of_not_mem _ (fun h => hk (List.mem_toFinset.mp h))]
      by_cases hx : key b ∈ (bs.map key).toFinset \ seen.toFinset
      · rw [Finset.card_erase_of_mem hx, Finset.insert_eq_self.mpr hx]
        have hpos : 0 < ((bs.map key).toFinset \ seen.toFinset).card :=
          Finset.card_pos.mpr ⟨_, hx⟩
        omega
      · rw [Finset.erase_eq_of_not_mem hx, Finset.card_insert_of_not_mem hx]

theorem mem_full_ch_list_iff {pr : Nat × Nat} :
    pr ∈ full_ch_list ↔
      ∃ e ∈ GATES_CHAKRA_DICT, pr = e.1 ∨ pr = (e.1.2, e.1.1) := by
  simp only [full_ch_list, List.mem_append, List.mem_map]
  constructor
  · rintro (⟨e, he, rfl⟩ | ⟨e, he, rfl⟩)
    · exact ⟨e, he, Or.inl rfl⟩
    · exact ⟨e, he, Or.inr rfl⟩
  · rintro ⟨e, he, (rfl | rfl)⟩
    · exact Or.inl ⟨e, he, rfl⟩
    · exact Or.inr ⟨e, he, rfl⟩

theorem swap_mem_full_ch_list {pr : Nat × Nat} (h : pr ∈ full_ch_list) :
    (pr.2, pr.1) ∈ full_ch_list := by
  rw [mem_full_ch_list_iff] at h ⊢
  obtain ⟨e, he, (rfl | rfl)⟩ := h
  · exact ⟨e, he, Or.inr rfl⟩
  · exact ⟨e, he, Or.inl (by simp)⟩

theorem dict_chakra_1 : ∀ e ∈ GATES_CHAKRA_DICT,
    full_gate_chakra_dict e.1.1 = e.2.1 ∧ chakra_1_of e.1.1 = e.2.1 ∧
      chakra_2_of e.1.1 = e.2.1 := by decide

theorem dict_chakra_2 : ∀ e ∈ GATES_CHAKRA_DICT,
    full_gate_chakra_dict e.1.2 = e.2.2 ∧ chakra_1_of e.1.2 = e.2.2 ∧
      chakra_2_of e.1.2 = e.2.2 := by decide

theorem table_chakra_ne : ∀ e ∈ GATES_CHAKRA_DICT, e.2.1 ≠ e.2.2 := by decide

theorem full_chakra_ne {pr : Nat × Nat} (h : pr ∈ full_ch_list) :
    full_gate_chakra_dict pr.1 ≠ full_gate_chakra_dict pr.2 := by
  obtain ⟨e, he, hor⟩ := mem_full_ch_list_iff.mp h
  have hc1 := (dict_chakra_1 e he).1
  have hc2 := (dict_chakra_2 e he).1
  have hne := table_chakra_ne e he
  rcases hor with rfl | rfl
  · rw [hc1, hc2]; exact hne
  · simp only at hc1 hc2 ⊢
    rw [hc1, hc2]; exact hne.symm

theorem firstPartner_isSome_iff {gates : List Nat} {g : Nat} :
    (firstPartner gates g).isSome ↔
      ∃ pr ∈ full_ch_list, pr.1 = g ∧ pr.2 ∈ gates := by
  unfold firstPartner
  rw [List.find?_isSome]
  constructor
  · rintro ⟨pr, hpr, hp⟩; exact ⟨pr, hpr, of_decide_eq_true hp⟩
  · rintro ⟨pr, hpr, hp⟩; exact ⟨pr, hpr, decide_eq_true hp⟩

theorem firstPartner_some_spec {gates : List Nat} {g : Nat} {pr : Nat × Nat}
    (h : firstPartner gates g = some pr) :
    pr ∈ full_ch_list ∧ pr.1 = g ∧ pr.2 ∈ gates := by
  unfold firstPartner at h
  refine ⟨List.mem_of_find?_eq_some h, ?_⟩
  have hp := List.find?_some h
  exact of_decide_eq_true hp

theorem active_channels_mem (gates : List Nat) {p : Nat × Nat}
    (hp : p ∈ active_channels gates) :
    p ∈ full_ch_list ∧ p.1 ∈ gates ∧ p.2 ∈ gates := by
  unfold active_channels at hp
  have h1 := List.mem_filter.mp hp
  have h2 := mem_of_mem_dedupByKey sortedPairN _ _ h1.1
  unfold builderRows at h2
  obtain ⟨g, hg, hpe⟩ := List.mem_map.mp h2
  have hne : p.2 ≠ 0 := by simpa using h1.2
  cases hfp : firstPartner gates g with
  | none =>
    exfalso
    apply hne
    rw [← hpe]
    simp [ch_gate_of, hfp]
  | some pr =>
    obtain ⟨hmem, hfst, hsnd⟩ := firstPartner_some_spec hfp
    have hpval : p = (g, pr.2) := by rw [← hpe]; simp [ch_gate_of, hfp]
    have hpr : (g, pr.2) = pr := by rw [← hfst]
    rw [hpval]
    exact ⟨hpr ▸ hmem, hg, hsnd⟩

theorem mem_active_centers_iff {gates : List Nat} {c : String} :
    c ∈ active_centers gates ↔
      ∃ g ∈ gates, (firstPartner gates g).isSome ∧
        (c = chakra_1_of g ∨ c = chakra_2_of g) := by
  simp only [active_centers, active_centers_list, List.mem_toFinset,
    List.mem_flatten, List.mem_map]
  constructor
  · rintro ⟨l, ⟨g, hg, rfl⟩, hc⟩
    by_cases h : (firstPartner gates g).isSome
    · rw [if_pos h] at hc
      refine ⟨g, hg, h, ?_⟩
      simpa using hc
    · rw [if_neg h] at hc
      simp at hc
  · rintro ⟨g, hg, hsome, hc⟩
    refine ⟨_, ⟨g, hg, rfl⟩, ?_⟩
    rw [if_pos hsome]
    simpa using hc

theorem center_mem_of_partner {gates : List Nat} {pr : Nat × Nat}
    (hmem : pr ∈ full_ch_list) (h1 : pr.1 ∈ gates) (h2 : pr.2 ∈ gates) :
    full_gate_chakra_dict pr.1 ∈ active_centers gates := by
  rw [mem_active_centers_iff]
  refine ⟨pr.1, h1, firstPartner_isSome_iff.mpr ⟨pr, hmem, rfl, h2⟩, Or.inl ?_⟩
  obtain ⟨e, he, hor⟩ := mem_full_ch_list_iff.mp hmem
  rcases hor with rfl | rfl
  · exact ((dict_chakra_1 e he).1.trans (dict_chakra_1 e he).2.1.symm)
  · exact ((dict_chakra_2 e he).1.trans (dict_chakra_2 e he).2.1.symm)

/-- C1: counterexample. On fixtureA the adjacency pair (10,57) has both
gates among the 26 activations, yet no channel with sorted gate pair
(10,57) occurs in the deduplicated active-channel list, refuting the
claimed equivalence: each activation contributes only its first activated
partner. -/
theorem c1_counterexample :
    ((10, 57), ("GC", "SN")) ∈ GATES_CHAKRA_DICT ∧ fixtureA.length = 26 ∧
      10 ∈ fixtureA ∧ 57 ∈ fixtureA ∧
      sortedPairN (10, 57) ∉ (active_channels fixtureA).map sortedPairN := by
  decide

/-- C1 (amended): every entry of the deduplicated active-channel list is
an adjacency-table pair both of whose gates occur among the 26
activations, and no unordered gate pair appears twice; having both gates
activated does not suffice for a pair to be listed. -/
theorem c1_active_channels_sound_unique (gates : List Nat)
    (h : gates.length = 26) (p : Nat × Nat) (hp : p ∈ active_channels gates) :
    (p ∈ full_ch_list ∧ p.1 ∈ gates ∧ p.2 ∈ gates) ∧
      ((active_channels gates).map sortedPairN).Nodup := by
  refine ⟨active_channels_mem gates hp, ?_⟩
  have h1 := (dedupByKey_map_nodup sortedPairN (builderRows gates) []).1
  have h2 : List.Sublist (active_channels gates)
      (dedupByKey sortedPairN (builderRows gates) []) := by
    unfold active_channels
    exact List.filter_sublist _
  exact h1.sublist (h2.map sortedPairN)

/-- C1: witness for the amended theorem at fixtureA and its listed
channel (20,57). -/
theorem c1_witness :
    (fixtureA.length = 26 ∧ (20, 57) ∈ active_channels fixtureA) ∧
      (((20, 57) ∈ full_ch_list ∧ 20 ∈ fixtureA ∧ 57 ∈ fixtureA) ∧
        ((active_channels fixtureA).map sortedPairN).Nodup) :=
  ⟨⟨by decide, by decide⟩,
    c1_active_channels_sound_unique fixtureA (by decide) (20, 57) (by decide)⟩

/-- C2: counterexample. On fixtureB the builder lists the two
gate-pair-distinct channels (31,7) and (8,1) over the two defined centers
Throat and G, so the claimed formula gives 2 - 2 = 0, but get_split
collapses the two equal center pairs and returns 1. -/
theorem c2_counterexample :
    fixtureB.length = 26 ∧ (active_channels fixtureB).length = 2 ∧
      (active_centers fixtureB).card = 2 ∧
      get_split (gate_chakra_rows fixtureB) (active_centers fixtureB) = 1 ∧
      get_split (gate_chakra_rows fixtureB) (active_centers fixtureB) ≠
        ((active_centers fixtureB).card : Int) -
          ((active_channels fixtureB).length : Int) := by
  decide

/-- C2 (amended): the split equals the number of defined centers minus
the number of DISTINCT unordered center pairs spanned by the active
channels; the source deduplicates the channel list a second time, by
center pair, before subtracting. -/
theorem c2_split_definition (gates : List Nat) (h : gates.length = 26) :
    get_split (gate_chakra_rows gates) (active_centers gates) =
      ((active_centers gates).card : Int) -
        (((gate_chakra_rows gates).map sortedPairS).toFinset.card : Int) := by
  unfold get_split
  rw [dedupByKey_length]
  simp

/-- C2: witness for the amended theorem at fixtureB. -/
theorem c2_witness :
    fixtureB.length = 26 ∧
      get_split (gate_chakra_rows fixtureB) (active_centers fixtureB) =
        ((active_centers fixtureB).card : Int) -
          (((gate_chakra_rows fixtureB).map sortedPairS).toFinset.card : Int) :=
  ⟨by decide, c2_split_definition fixtureB (by decide)⟩

/-- C3: counterexample. On fixtureC the five active channels span five
distinct center pairs over four defined centers, so the split is -1:
the engine can return a negative split. -/
theorem c3_counterexample :
    fixtureC.length = 26 ∧
      get_split (gate_chakra_rows fixtureC) (active_centers fixtureC) = -1 ∧
      ¬(0 ≤ get_split (gate_chakra_rows fixtureC) (active_centers fixtureC)) := by
  decide

/-- C3 (amended): the split is an integer bounded below by the number of
defined centers minus the number of active channel rows and bounded above
by the number of defined centers; it is NOT always nonnegative. -/
theorem c3_split_bounds (gates : List Nat) (h : gates.length = 26) :
    ((active_centers gates).card : Int) - ((gate_chakra_rows gates).length : Int) ≤
        get_split (gate_chakra_rows gates) (active_centers gates) ∧
      get_split (gate_chakra_rows gates) (active_centers gates) ≤
        ((active_centers gates).card : Int) := by
  have h1 : (dedupByKey sortedPairS (gate_chakra_rows gates) []).length ≤
      (gate_chakra_rows gates).length :=
    (dedupByKey_sublist sortedPairS _ _).length_le
  unfold get_split
  omega

/-- C3: witness for the amended theorem at fixtureC. -/
theorem c3_witness :
    fixtureC.length = 26 ∧
      (((active_centers fixtureC).card : Int) -
          ((gate_chakra_rows fixtureC).length : Int) ≤
        get_split (gate_chakra_rows fixtureC) (active_centers fixtureC) ∧
      get_split (gate_chakra_rows fixtureC) (active_centers fixtureC) ≤
        ((active_centers fixtureC).card : Int)) :=
  ⟨by decide, c3_split_bounds fixtureC (by decide)⟩

/-- C4: a center is in the defined-center set returned by the builder iff
it is an endpoint of at least one adjacency-table pair both of whose
gates occur among the 26 activations. -/
theorem c4_defined_centers_iff (gates : List Nat) (h : gates.length = 26)
    (c : String) :
    c ∈ active_centers gates ↔
      ∃ e ∈ GATES_CHAKRA_DICT, e.1.1 ∈ gates ∧ e.1.2 ∈ gates ∧
        (c = e.2.1 ∨ c = e.2.2) := by
  rw [mem_active_centers_iff]
  constructor
  · rintro ⟨g, hg, hsome, hc⟩
    obtain ⟨pr, hpr, hfst, hsnd⟩ := firstPartner_isSome_iff.mp hsome
    obtain ⟨e, he, hor⟩ := mem_full_ch_list_iff.mp hpr
    rcases hor with heq | heq
    · have hg1 : e.1.1 = g := by rw [heq] at hfst; exact hfst
      have hg2 : e.1.2 ∈ gates := by rw [heq] at hsnd; exact hsnd
      refine ⟨e, he, hg1.symm ▸ hg, hg2, Or.inl ?_⟩
      have d1 := dict_chakra_1 e he
      rcases hc with rfl | rfl
      · rw [← hg1]; exact d1.2.1
      · rw [← hg1]; exact d1.2.2
    · have hg1 : e.1.2 = g := by rw [heq] at hfst; exact hfst
      have hg2 : e.1.1 ∈ gates := by rw [heq] at hsnd; exact hsnd
      refine ⟨e, he, hg2, hg1.symm ▸ hg, Or.inr ?_⟩
      have d2 := dict_chakra_2 e he
      rcases hc with rfl | rfl
      · rw [← hg1]; exact d2.2.1
      · rw [← hg1]; exact d2.2.2
  · rintro ⟨e, he, h1, h2, hc⟩
    have hmem1 : e.1 ∈ full_ch_list := mem_full_ch_list_iff.mpr ⟨e, he, Or.inl rfl⟩
    have hmem2 : (e.1.2, e.1.1) ∈ full_ch_list :=
      mem_full_ch_list_iff.mpr ⟨e, he, Or.inr rfl⟩
    rcases hc with rfl | rfl
    · exact ⟨e.1.1, h1, firstPartner_isSome_iff.mpr ⟨e.1, hmem1, rfl, h2⟩,
        Or.inl (dict_chakra_1 e he).2.1.symm⟩
    · exact ⟨e.1.2, h2, firstPartner_isSome_iff.mpr ⟨(e.1.2, e.1.1), hmem2, rfl, h1⟩,
        Or.inl (dict_chakra_2 e he).2.1.symm⟩

/-- C4: witness at fixtureA and the Throat center. -/
theorem c4_witness :
    fixtureA.length = 26 ∧
      ("TT" ∈ active_centers fixtureA ↔
        ∃ e ∈ GATES_CHAKRA_DICT, e.1.1 ∈ fixtureA ∧ e.1.2 ∈ fixtureA ∧
          ("TT" = e.2.1 ∨ "TT" = e.2.2)) :=
  ⟨by decide, c4_defined_centers_iff fixtureA (by decide) "TT"⟩

theorem table_pair_classification : ∀ e ∈ GATES_CHAKRA_DICT,
    (e.2.1 = "GC" ∧ e.2.2 = "HT") ∨
      (e.2.1 ∈ (["SP", "SL", "SN", "HD", "AA", "TT"] : List String) ∨
        e.2.2 ∈ (["SP", "SL", "SN", "HD", "AA", "TT"] : List String)) := by decide

/-- C6: get_authority implements exactly the first-match decision chain
stated by the specification, for every defined-center set and every
active-channel list. -/
theorem c6_authority_first_match (centers : Finset String)
    (ch : List (String × String)) :
    get_authority centers ch = authoritySpec centers ch := by
  unfold get_authority authoritySpec
  by_cases h0 : centers = ∅
  · subst h0; simp
  · have hcard : ¬(centers.card = 0) := by
      simpa [Finset.card_eq_zero] using h0
    simp [h0, hcard]

/-- C9: when no adjacency pair of the table is completed by the 26
activations, the builder yields no channels and no defined centers, and
the derived features are energy type REFLECTOR, lunar authority and
split 0; in this model every function is total, so no error case exists. -/
theorem c9_reflector (gates : List Nat) (h : gates.length = 26)
    (hno : ∀ e ∈ GATES_CHAKRA_DICT, ¬(e.1.1 ∈ gates ∧ e.1.2 ∈ gates)) :
    active_centers gates = ∅ ∧ active_channels gates = [] ∧
      get_energy_type (gate_chakra_rows gates) (active_centers gates) =
        "REFLECTOR" ∧
      get_authority (active_centers gates) (gate_chakra_rows gates) = "lunar" ∧
      get_split (gate_chakra_rows gates) (active_centers gates) = 0 := by
  have hfp : ∀ g ∈ gates, firstPartner gates g = none := by
    intro g hg
    cases hq : firstPartner gates g with
    | none => rfl
    | some pr =>
      exfalso
      obtain ⟨hmem, hfst, hsnd⟩ := firstPartner_some_spec hq
      obtain ⟨e, he, hor⟩ := mem_full_ch_list_iff.mp hmem
      rcases hor with heq | heq
      · rw [heq] at hfst hsnd
        exact hno e he ⟨by rw [show e.1.1 = g from hfst]; exact hg, hsnd⟩
      · rw [heq] at hfst hsnd
        exact hno e he ⟨hsnd, by rw [show e.1.2 = g from hfst]; exact hg⟩
  have hcenters : active_centers gates = ∅ := by
    rw [Finset.eq_empty_iff_forall_not_mem]
    intro c hc
    obtain ⟨g, hg, hsome, _⟩ := mem_active_centers_iff.mp hc
    rw [hfp g hg] at hsome
    simp at hsome
  have hch : active_channels gates = [] := by
    unfold active_channels
    rw [List.filter_eq_nil_iff]
    intro p hp
    have hmem := mem_of_mem_dedupByKey sortedPairN _ _ hp
    unfold builderRows at hmem
    obtain ⟨g, hg, hpe⟩ := List.mem_map.mp hmem
    rw [← hpe]
    simp [ch_gate_of, hfp g hg]
  have hrows : gate_chakra_rows gates = [] := by
    unfold gate_chakra_rows; rw [hch]; rfl
  refine ⟨hcenters, hch, ?_, ?_, ?_⟩ <;> rw [hcenters, hrows] <;> decide

/-- C9: witness at fixtureD, a 26-fold activation of gate 64 that
completes no adjacency pair. -/
theorem c9_witness :
    (fixtureD.length = 26 ∧
      ∀ e ∈ GATES_CHAKRA_DICT, ¬(e.1.1 ∈ fixtureD ∧ e.1.2 ∈ fixtureD)) ∧
      (active_centers fixtureD = ∅ ∧ active_channels fixtureD = [] ∧
        get_energy_type (gate_chakra_rows fixtureD) (active_centers fixtureD) =
          "REFLECTOR" ∧
        get_authority (active_centers fixtureD) (gate_chakra_rows fixtureD) =
          "lunar" ∧
        get_split (gate_chakra_rows fixtureD) (active_centers fixtureD) = 0) :=
  ⟨⟨by decide, by decide⟩, c9_reflector fixtureD (by decide) (by decide)⟩

/-- C10: the unknown fallback of get_authority is unreachable whenever
the defined-center set is nonempty and every defined center is an
endpoint of an adjacency-table center pair whose other endpoint is also
defined (the builder invariant). -/
theorem c10_no_unknown_fallback (centers : Finset String)
    (ch : List (String × String)) (hne : centers ≠ ∅)
    (hcov : ∀ c ∈ centers, ∃ e ∈ GATES_CHAKRA_DICT,
      (e.2.1 = c ∧ e.2.2 ∈ centers) ∨ (e.2.2 = c ∧ e.2.1 ∈ centers)) :
    get_authority centers ch ≠ "unknown" := by
  unfold get_authority
  intro hcontra
  by_cases m1 : "SP" ∈ centers
  · simp [m1] at hcontra
  by_cases m2 : "SL" ∈ centers
  · simp [m1, m2] at hcontra
  by_cases m3 : "SN" ∈ centers
  · simp [m1, m2, m3] at hcontra
  by_cases b4 : is_connected ch ["HT", "TT"] = true
  · simp [m1, m2, m3, b4] at hcontra
  by_cases b5 : is_connected ch ["GC", "TT"] = true
  · simp [m1, m2, m3, b4, b5] at hcontra
  by_cases m6 : "GC" ∈ centers ∧ "HT" ∈ centers
  · simp [m1, m2, m3, b4, b5, m6] at hcontra
  by_cases c7 : centers.card = 0
  · exact hne (Finset.card_eq_zero.mp c7)
  by_cases d8 : "HD" ∈ centers ∨ "AA" ∈ centers ∨ "TT" ∈ centers ∨
      centers.card = 0
  · rcases d8 with hd | hd | hd | hd
    · simp [m1, m2, m3, b4, b5, m6, c7, hd] at hcontra
    · simp [m1, m2, m3, b4, b5, m6, c7, hd] at hcontra
    · simp [m1, m2, m3, b4, b5, m6, c7, hd] at hcontra
    · exact c7 hd
  have hbad : ∀ s ∈ (["SP", "SL", "SN", "HD", "AA", "TT"] : List String),
      s ∉ centers := by
    intro s hs
    simp only [List.mem_cons, List.not_mem_nil, or_false] at hs
    rcases hs with rfl | rfl | rfl | rfl | rfl | rfl
    · exact m1
    · exact m2
    · exact m3
    · exact fun hmem => d8 (Or.inl hmem)
    · exact fun hmem => d8 (Or.inr (Or.inl hmem))
    · exact fun hmem => d8 (Or.inr (Or.inr (Or.inl hmem)))
  obtain ⟨c, hc⟩ := Finset.nonempty_iff_ne_empty.mpr hne
  obtain ⟨e, he, hor⟩ := hcov c hc
  rcases table_pair_classification e he with ⟨hg1, hg2⟩ | hb | hb
  · rcases hor with ⟨hec, hmem2⟩ | ⟨hec, hmem2⟩
    · exact m6 ⟨by rw [← hg1, hec]; exact hc, by rw [← hg2]; exact hmem2⟩
    · exact m6 ⟨by rw [← hg1]; exact hmem2, by rw [← hg2, hec]; exact hc⟩
  · rcases hor with ⟨hec, _⟩ | ⟨_, hmem2⟩
    · exact hbad _ hb (by rw [hec]; exact hc)
    · exact hbad _ hb hmem2
  · rcases hor with ⟨_, hmem2⟩ | ⟨hec, _⟩
    · exact hbad _ hb hmem2
    · exact hbad _ hb (by rw [hec]; exact hc)

/-- C10: witness at the defined-center set Throat and G (the channel
(20,10) completes it) with no channel rows passed to the authority. -/
theorem c10_witness :
    (({"TT", "GC"} : Finset String) ≠ ∅ ∧
      ∀ c ∈ ({"TT", "GC"} : Finset String), ∃ e ∈ GATES_CHAKRA_DICT,
        (e.2.1 = c ∧ e.2.2 ∈ ({"TT", "GC"} : Finset String)) ∨
          (e.2.2 = c ∧ e.2.1 ∈ ({"TT", "GC"} : Finset String))) ∧
      get_authority ({"TT", "GC"} : Finset String) [] ≠ "unknown" :=
  ⟨⟨by decide, by decide⟩,
    c10_no_unknown_fallback ({"TT", "GC"} : Finset String) [] (by decide)
      (by decide)⟩

/-- C7: counterexample. With the single active channel Throat-SolarPlexus
and the three requested centers Heart, SolarPlexus, Throat, the claimed
covered-centers reading is satisfied (2 of 3 requested centers are
matched endpoints) but is_connected counts matched channel rows (1 < 2)
and returns false. -/
theorem c7_counterexample :
    is_connected_claimC7 [("TT", "SP")] ["HT", "SP", "TT"] = true ∧
      is_connected [("TT", "SP")] ["HT", "SP", "TT"] = false := by decide

/-- C7 (amended): is_connected is false on an empty channel list; for two
requested centers it is true iff some channel has one endpoint equal to
each; for more than two it is true iff the NUMBER OF CHANNEL ROWS with
both endpoints among the requested centers is at least (count - 1). -/
theorem c7_connected_semantics (ch : List (String × String))
    (args : List String) (hdist : ∀ c ∈ ch, c.1 ≠ c.2) (a b : String) :
    (ch = [] → is_connected ch args = false) ∧
    (args = [a, b] →
      (is_connected ch args = true ↔
        ∃ c ∈ ch, (c.1 = a ∧ c.2 = b) ∨ (c.1 = b ∧ c.2 = a))) ∧
    (2 < args.length →
      (is_connected ch args = true ↔
        args.length - 1 ≤
          (ch.filter (fun c => decide (c.1 ∈ args ∧ c.2 ∈ args))).length)) := by
  refine ⟨?_, ?_, ?_⟩
  · rintro rfl; rfl
  · rintro rfl
    unfold is_connected
    by_cases hch : ch.length = 0
    · rw [if_pos hch]
      have hnil : ch = [] := List.length_eq_zero.mp hch
      subst hnil
      simp
    · rw [if_neg hch]
      rw [decide_eq_true_iff]
      constructor
      · intro hle
        simp only [List.length_cons, List.length_nil] at hle
        have hpos : 0 < (ch.filter
            (fun c => decide (c.1 ∈ [a, b] ∧ c.2 ∈ [a, b]))).length := by omega
        obtain ⟨c, hcmem⟩ := List.exists_mem_of_length_pos hpos
        have hcf := List.mem_filter.mp hcmem
        have hcd := of_decide_eq_true hcf.2
        have hne := hdist c hcf.1
        refine ⟨c, hcf.1, ?_⟩
        simp only [List.mem_cons, List.not_mem_nil, or_false] at hcd
        rcases hcd.1 with h1 | h1 <;> rcases hcd.2 with h2 | h2
        · exact absurd (h1.trans h2.symm) hne
        · exact Or.inl ⟨h1, h2⟩
        · exact Or.inr ⟨h1, h2⟩
        · exact absurd (h1.trans h2.symm) hne
      · rintro ⟨c, hcm, hcor⟩
        have hcmem : c ∈ ch.filter
            (fun c => decide (c.1 ∈ [a, b] ∧ c.2 ∈ [a, b])) := by
          rw [List.mem_filter]
          refine ⟨hcm, decide_eq_true ?_⟩
          rcases hcor with ⟨h1, h2⟩ | ⟨h1, h2⟩ <;> simp [h1, h2]
        have hpos : 0 < (ch.filter
            (fun c => decide (c.1 ∈ [a, b] ∧ c.2 ∈ [a, b]))).length :=
          List.length_pos.mpr (List.ne_nil_of_mem hcmem)
        simp only [List.length_cons, List.length_nil]
        omega
  · intro hlen
    unfold is_connected
    by_cases hch : ch.length = 0
    · rw [if_pos hch]
      have hnil : ch = [] := List.length_eq_zero.mp hch
      subst hnil
      simp only [List.filter_nil, List.length_nil]
      constructor
      · intro hfalse; exact absurd hfalse (by simp)
      · intro hle; exact absurd hle (by omega)
    · rw [if_neg hch]
      exact decide_eq_true_iff

/-- C7: witness for the amended theorem at one distinct-endpoint channel
and the two-center argument list it connects. -/
theorem c7_witness :
    (∀ c ∈ ([(("GC" : String), ("TT" : String))] : List (String × String)),
        c.1 ≠ c.2) ∧
      (([(("GC" : String), ("TT" : String))] : List (String × String)) = [] →
        is_connected [(("GC" : String), ("TT" : String))] ["GC", "TT"] = false) ∧
      (["GC", "TT"] = ["GC", "TT"] →
        (is_connected [(("GC" : String), ("TT" : String))] ["GC", "TT"] = true ↔
          ∃ c ∈ ([(("GC" : String), ("TT" : String))] : List (String × String)),
            (c.1 = "GC" ∧ c.2 = "TT") ∨ (c.1 = "TT" ∧ c.2 = "GC"))) ∧
      (2 < (["GC", "TT"] : List String).length →
        (is_connected [(("GC" : String), ("TT" : String))] ["GC", "TT"] = true ↔
          (["GC", "TT"] : List String).length - 1 ≤
            (([(("GC" : String), ("TT" : String))] :
                List (String × String)).filter
              (fun c => decide (c.1 ∈ (["GC", "TT"] : List String) ∧
                c.2 ∈ (["GC", "TT"] : List String)))).length)) :=
  ⟨by decide, c7_connected_semantics _ _ (by decide) "GC" "TT"⟩

theorem connected_two_mem (gates : List Nat) {a b : String} (hab : a ≠ b)
    (h : is_connected (gate_chakra_rows gates) [a, b] = true) :
    a ∈ active_centers gates ∧ b ∈ active_centers gates := by
  unfold is_connected at h
  by_cases hch : (gate_chakra_rows gates).length = 0
  · rw [if_pos hch] at h
    exact absurd h (by simp)
  · rw [if_neg hch] at h
    have hle := of_decide_eq_true h
    simp only [List.length_cons, List.length_nil] at hle
    have hpos : 0 < ((gate_chakra_rows gates).filter
        (fun c => decide (c.1 ∈ [a, b] ∧ c.2 ∈ [a, b]))).length := by omega
    obtain ⟨c, hcmem⟩ := List.exists_mem_of_length_pos hpos
    have hcf := List.mem_filter.mp hcmem
    have hcd := of_decide_eq_true hcf.2
    obtain ⟨p, hpch, hpc⟩ := List.mem_map.mp hcf.1
    obtain ⟨hfull, hp1, hp2⟩ := active_channels_mem gates hpch
    have hc1 : full_gate_chakra_dict p.1 ∈ active_centers gates :=
      center_mem_of_partner hfull hp1 hp2
    have hc2 : full_gate_chakra_dict p.2 ∈ active_centers gates :=
      center_mem_of_partner (swap_mem_full_ch_list hfull) hp2 hp1
    have hne := full_chakra_ne hfull
    rw [← hpc] at hcd
    dsimp only at hcd
    simp only [List.mem_cons, List.not_mem_nil, or_false] at hcd
    rcases hcd.1 with h1 | h1 <;> rcases hcd.2 with h2 | h2
    · exact absurd (h1.trans h2.symm) hne
    · exact ⟨h1 ▸ hc1, h2 ▸ hc2⟩
    · exact ⟨h2 ▸ hc2, h1 ▸ hc1⟩
    · exact absurd (h1.trans h2.symm) hne

/-- C5: on builder outputs, get_energy_type coincides with the
specification decision procedure that omits the defined-center guards in
front of the connectivity checks: whenever a two-center connection holds,
both centers are necessarily defined. -/
theorem c5_energy_type_matches_spec (gates : List Nat)
    (h : gates.length = 26) :
    get_energy_type (gate_chakra_rows gates) (active_centers gates) =
      energyTypeSpec (gate_chakra_rows gates) (active_centers gates) := by
  have e1 : ("HT" ∈ active_centers gates ∧
      is_connected (gate_chakra_rows gates) ["HT", "TT"] = true) ↔
      is_connected (gate_chakra_rows gates) ["HT", "TT"] = true :=
    ⟨fun hx => hx.2,
      fun hx => ⟨(connected_two_mem gates (by decide) hx).1, hx⟩⟩
  have e2 : ("SP" ∈ active_centers gates ∧
      is_connected (gate_chakra_rows gates) ["SP", "TT"] = true) ↔
      is_connected (gate_chakra_rows gates) ["SP", "TT"] = true :=
    ⟨fun hx => hx.2,
      fun hx => ⟨(connected_two_mem gates (by decide) hx).1, hx⟩⟩
  have e3 : ("RT" ∈ active_centers gates ∧
      is_connected (gate_chakra_rows gates) ["RT", "TT"] = true) ↔
      is_connected (gate_chakra_rows gates) ["RT", "TT"] = true :=
    ⟨fun hx => hx.2,
      fun hx => ⟨(connected_two_mem gates (by decide) hx).1, hx⟩⟩
  unfold get_energy_type energyTypeSpec
  simp only [e1, e2, e3]
  by_cases h0 : (active_centers gates).card = 0
  · have h0e : active_centers gates = ∅ := Finset.card_eq_zero.mp h0
    simp [h0, h0e]
  · have h0e : ¬(active_centers gates = ∅) := fun he => h0 (by simp [he])
    by_cases hSL : "SL" ∈ active_centers gates <;>
      by_cases hTT : "TT" ∈ active_centers gates <;>
      by_cases b1 : is_connected (gate_chakra_rows gates) ["HT", "TT"] = true <;>
      by_cases b2 : is_connected (gate_chakra_rows gates) ["SP", "TT"] = true <;>
      by_cases b3 : is_connected (gate_chakra_rows gates) ["RT", "TT"] = true <;>
      by_cases b4 : is_connected (gate_chakra_rows gates) ["SL", "TT"] = true <;>
      simp [h0, h0e, hSL, hTT, b1, b2, b3, b4]

/-- C5: witness at fixtureA. -/
theorem c5_witness :
    fixtureA.length = 26 ∧
      get_energy_type (gate_chakra_rows fixtureA) (active_centers fixtureA) =
        energyTypeSpec (gate_chakra_rows fixtureA) (active_centers fixtureA) :=
  ⟨by decide, c5_energy_type_matches_spec fixtureA (by decide)⟩

theorem pymod_eq_fract (x : ℚ) {m : ℚ} (hm : m ≠ 0) :
    pymod x m = m * Int.fract (x / m) := by
  unfold pymod Int.fract
  rw [mul_sub]
  congr 1
  field_simp

theorem pymod_nonneg (x : ℚ) {m : ℚ} (hm : 0 < m) : 0 ≤ pymod x m := by
  rw [pymod_eq_fract x hm.ne']
  exact mul_nonneg hm.le (Int.fract_nonneg _)

theorem pymod_lt (x : ℚ) {m : ℚ} (hm : 0 < m) : pymod x m < m := by
  rw [pymod_eq_fract x hm.ne']
  calc m * Int.fract (x / m) < m * 1 :=
        mul_lt_mul_of_pos_left (Int.fract_lt_one _) hm
    _ = m := mul_one m

theorem floor_div_int_q (x : ℚ) {k : ℤ} (hk : 0 < k) :
    ⌊x / (k : ℚ)⌋ = ⌊x⌋ / k := by
  have hkq : (0 : ℚ) < (k : ℚ) := by exact_mod_cast hk
  refine eq_of_forall_le_iff (fun z => ?_)
  constructor
  · intro hz
    have h1 : (z : ℚ) ≤ x / k := Int.le_floor.mp hz
    have h2 : (z : ℚ) * k ≤ x := (le_div_iff₀ hkq).mp h1
    have h3 : ((z * k : ℤ) : ℚ) ≤ x := by push_cast; exact h2
    exact (Int.le_ediv_iff_mul_le hk).mpr (Int.le_floor.mpr h3)
  · intro hz
    have h4 : z * k ≤ ⌊x⌋ := (Int.le_ediv_iff_mul_le hk).mp hz
    have h3 : ((z * k : ℤ) : ℚ) ≤ x := Int.le_floor.mp h4
    have h2 : (z : ℚ) * k ≤ x := by push_cast at h3; exact h3
    exact Int.le_floor.mpr ((le_div_iff₀ hkq).mpr h2)

theorem floor_pymod_int (x : ℚ) {k : ℤ} (hk : 0 < k) :
    ⌊x - (k : ℚ) * ⌊x / (k : ℚ)⌋ + 1⌋ = ⌊x⌋ % k + 1 := by
  rw [floor_div_int_q x hk]
  have hcast : x - (k : ℚ) * ((⌊x⌋ / k : ℤ) : ℚ) + 1 =
      x + ((1 - k * (⌊x⌋ / k) : ℤ) : ℚ) := by push_cast; ring
  rw [hcast, Int.floor_add_int, Int.emod_def]
  ring

theorem pymod_period (x : ℚ) (k : ℕ) :
    pymod (x + 360 * k) 360 = pymod x 360 := by
  unfold pymod
  have hdiv : (x + 360 * k) / 360 = x / 360 + k := by
    field_simp
    ring
  rw [hdiv, Int.floor_add_nat]
  push_cast
  ring

theorem gate_range_all : ∀ i, i < 64 →
    1 ≤ ICHING_CIRCLE_LIST.getD i 0 ∧ ICHING_CIRCLE_LIST.getD i 0 ≤ 64 := by
  decide

/-- C8: for every nonnegative longitude, the angle mapper computes the
claimed floor and modulus formulas, its gate lies in [1,64], line, color
and tone lie in [1,6], base lies in [1,5], and all five outputs are
invariant under adding full turns 360k. -/
theorem c8_angle_mapper (L : ℚ) (hL : 0 ≤ L) (k : ℕ) :
    (1 ≤ hd_gate L ∧ hd_gate L ≤ 64) ∧
    (hd_line L = ⌊hd_frac L * 384⌋ % 6 + 1 ∧ 1 ≤ hd_line L ∧ hd_line L ≤ 6) ∧
    (hd_color L = ⌊hd_frac L * 2304⌋ % 6 + 1 ∧ 1 ≤ hd_color L ∧ hd_color L ≤ 6) ∧
    (hd_tone L = ⌊hd_frac L * 13824⌋ % 6 + 1 ∧ 1 ≤ hd_tone L ∧ hd_tone L ≤ 6) ∧
    (hd_base L = ⌊hd_frac L * 69120⌋ % 5 + 1 ∧ 1 ≤ hd_base L ∧ hd_base L ≤ 5) ∧
    (hd_gate (L + 360 * k) = hd_gate L ∧ hd_line (L + 360 * k) = hd_line L ∧
      hd_color (L + 360 * k) = hd_color L ∧ hd_tone (L + 360 * k) = hd_tone L ∧
      hd_base (L + 360 * k) = hd_base L) := by
  have h6 : (6 : ℚ) = ((6 : ℤ) : ℚ) := by norm_num
  have h5 : (5 : ℚ) = ((5 : ℤ) : ℚ) := by norm_num
  have hline : hd_line L = ⌊hd_frac L * 384⌋ % 6 + 1 := by
    unfold hd_line
    rw [show hd_frac L * 64 * 6 = hd_frac L * 384 from by ring]
    unfold pymod
    rw [h6]
    exact floor_pymod_int _ (by norm_num)
  have hcolor : hd_color L = ⌊hd_frac L * 2304⌋ % 6 + 1 := by
    unfold hd_color
    rw [show hd_frac L * 64 * 6 * 6 = hd_frac L * 2304 from by ring]
    unfold pymod
    rw [h6]
    exact floor_pymod_int _ (by norm_num)
  have htone : hd_tone L = ⌊hd_frac L * 13824⌋ % 6 + 1 := by
    unfold hd_tone
    rw [show hd_frac L * 64 * 6 * 6 * 6 = hd_frac L * 13824 from by ring]
    unfold pymod
    rw [h6]
    exact floor_pymod_int _ (by norm_num)
  have hbase : hd_base L = ⌊hd_frac L * 69120⌋ % 5 + 1 := by
    unfold hd_base
    rw [show hd_frac L * 64 * 6 * 6 * 6 * 5 = hd_frac L * 69120 from by ring]
    unfold pymod
    rw [h5]
    exact floor_pymod_int _ (by norm_num)
  have hfrac0 : 0 ≤ hd_frac L :=
    div_nonneg (pymod_nonneg _ (by norm_num)) (by norm_num)
  have hfrac1 : hd_frac L < 1 := by
    unfold hd_frac
    rw [div_lt_one (by norm_num : (0 : ℚ) < 360)]
    exact pymod_lt _ (by norm_num)
  have hfp : hd_frac (L + 360 * k) = hd_frac L := by
    unfold hd_frac hd_angle
    rw [show L + 360 * (k : ℚ) + 58 = (L + 58) + 360 * k from by ring,
      pymod_period]
  have hidx : (⌊hd_frac L * 64⌋).toNat < 64 := by
    have h1 : ⌊hd_frac L * 64⌋ < 64 :=
      Int.floor_lt.mpr (by push_cast; nlinarith)
    have h2 : 0 ≤ ⌊hd_frac L * 64⌋ := Int.floor_nonneg.mpr (by positivity)
    omega
  refine ⟨?_, ⟨hline, ?_, ?_⟩, ⟨hcolor, ?_, ?_⟩, ⟨htone, ?_, ?_⟩,
    ⟨hbase, ?_, ?_⟩, ?_, ?_, ?_, ?_, ?_⟩
  · exact gate_range_all _ hidx
  · have := Int.emod_nonneg ⌊hd_frac L * 384⌋ (by norm_num : (6 : ℤ) ≠ 0)
    omega
  · have := Int.emod_lt_of_pos ⌊hd_frac L * 384⌋ (by norm_num : (0 : ℤ) < 6)
    omega
  · have := Int.emod_nonneg ⌊hd_frac L * 2304⌋ (by norm_num : (6 : ℤ) ≠ 0)
    omega
  · have := Int.emod_lt_of_pos ⌊hd_frac L * 2304⌋ (by norm_num : (0 : ℤ) < 6)
    omega
  · have := Int.emod_nonneg ⌊hd_frac L * 13824⌋ (by norm_num : (6 : ℤ) ≠ 0)
    omega
  · have := Int.emod_lt_of_pos ⌊hd_frac L * 13824⌋ (by norm_num : (0 : ℤ) < 6)
    omega
  · have := Int.emod_nonneg ⌊hd_frac L * 69120⌋ (by norm_num : (5 : ℤ) ≠ 0)
    omega
  · have := Int.emod_lt_of_pos ⌊hd_frac L * 69120⌋ (by norm_num : (0 : ℤ) < 5)
    omega
  · unfold hd_gate; rw [hfp]
  · unfold hd_line; rw [hfp]
  · unfold hd_color; rw [hfp]
  · unfold hd_tone; rw [hfp]
  · unfold hd_base; rw [hfp]

/-- C8: witness at longitude 0 and one full extra turn. -/
theorem c8_witness :
    (0 : ℚ) ≤ (0 : ℚ) ∧
      ((1 ≤ hd_gate 0 ∧ hd_gate 0 ≤ 64) ∧
        (hd_line 0 = ⌊hd_frac 0 * 384⌋ % 6 + 1 ∧ 1 ≤ hd_line 0 ∧
          hd_line 0 ≤ 6) ∧
        (hd_color 0 = ⌊hd_frac 0 * 2304⌋ % 6 + 1 ∧ 1 ≤ hd_color 0 ∧
          hd_color 0 ≤ 6) ∧
        (hd_tone 0 = ⌊hd_frac 0 * 13824⌋ % 6 + 1 ∧ 1 ≤ hd_tone 0 ∧
          hd_tone 0 ≤ 6) ∧
        (hd_base 0 = ⌊hd_frac 0 * 69120⌋ % 5 + 1 ∧ 1 ≤ hd_base 0 ∧
          hd_base 0 ≤ 5) ∧
        (hd_gate (0 + 360 * ((1 : ℕ) : ℚ)) = hd_gate 0 ∧
          hd_line (0 + 360 * ((1 : ℕ) : ℚ)) = hd_line 0 ∧
          hd_color (0 + 360 * ((1 : ℕ) : ℚ)) = hd_color 0 ∧
          hd_tone (0 + 360 * ((1 : ℕ) : ℚ)) = hd_tone 0 ∧
          hd_base (0 + 360 * ((1 : ℕ) : ℚ)) = hd_base 0)) :=
  ⟨le_refl 0, c8_angle_mapper 0 (le_refl 0) 1⟩

end HumanDesign
